import Mathlib

/-!
Verification of the FundTransferApp fund-transfer service (FundTransferApp.go).

The Go program keeps an `accounts` table (id, balance NUMERIC, last_updated
TIMESTAMP) and a `transactions` table in Postgres, and serves three HTTP
endpoints: create account, get account, transfer.  The transfer handler
(`handleTransfer`, lines 153-236) runs up to 3 attempts; each attempt opens a
transaction, reads the source row, checks funds, performs a version-gated
debit UPDATE, reads the destination row, performs a version-gated credit
UPDATE, inserts one row in `transactions`, and commits.  A version-gated
UPDATE that affects 0 rows is a concurrency conflict: the attempt is rolled
back, the handler sleeps 50 ms and retries; on the last attempt it returns a
conflict error (code 1016 for the debit phase, 1018 for the credit phase).

Shallow embedding choices:
* `last_updated` / `NOW()` is modelled as a monotone counter `clock` on the
  database state; every transaction stamps mutated rows with `clock + 1`
  (Postgres `NOW()` is constant within a transaction).
* Balances and amounts are modelled as exact rationals `ℚ`; this is the
  semantics of the NUMERIC arithmetic performed by the UPDATE statements.
  The Go-side `float64` representation of `TransferRequest.Amount` and
  `Account.Balance` is modelled separately (`Float64Representable`).
* The account table is a partial map `AccountID → Option AccountRow`.
* The transaction-discard semantics (`tx.Rollback` explicit or deferred) is
  modelled by returning the pre-transaction state on every non-commit path.
-/

/-- Account identifiers: the Go `id INT` column / `int` fields. -/
abbrev AccountID := Int

/-- One row of the `accounts` table: `balance NUMERIC`, `last_updated`
modelled as a counter stamp. -/
structure AccountRow where
  balance : ℚ
  lastUpdated : Nat
  deriving DecidableEq, Repr

/-- One row of the `transactions` table (`from_account, to_account, amount`);
the SERIAL id and created_at timestamp are implicit in the list position. -/
structure LogRow where
  fromAccount : AccountID
  toAccount : AccountID
  amount : ℚ
  deriving DecidableEq, Repr

/-- The committed database state: accounts table, transactions table, and the
monotone clock standing for the `NOW()` timestamp source. -/
structure DBState where
  accounts : AccountID → Option AccountRow
  transactions : List LogRow
  clock : Nat

/-- Balance of an account as read by `SELECT balance FROM accounts WHERE id=$1`. -/
def balOf (db : DBState) (id : AccountID) : Option ℚ :=
  (db.accounts id).map AccountRow.balance

/-- The optimistic-concurrency-control primitive, translated from the two
inline UPDATE statements of `handleTransfer` (lines 186 and 205):
`UPDATE accounts SET balance = balance + delta, last_updated = NOW()
WHERE id = $2 AND last_updated = $3`.  Returns the rows-affected count and
the post-statement state; `now` is the transaction's `NOW()` value.  The
debit instantiates `delta := -amount`, the credit `delta := amount`. -/
def conditionalUpdateBalance (db : DBState) (id : AccountID) (delta : ℚ)
    (expectedVersion : Nat) (now : Nat) : Nat × DBState :=
  match db.accounts id with
  | none => (0, db)
  | some row =>
    if row.lastUpdated = expectedVersion then
      (1, { db with
            accounts := fun j =>
              if j = id then some ⟨row.balance + delta, now⟩ else db.accounts j })
    else
      (0, db)

/-- Outcome of one run of the transfer handler, one constructor per exit
path of `handleTransfer` (the Go error codes are in comments). -/
inductive TransferResult where
  | success (fromId toId : AccountID) (amount : ℚ)  -- code 2003
  | sourceNotFound                                  -- code 1014
  | insufficientFunds                               -- code 1015
  | conflictDebit                                   -- code 1016
  | destNotFound                                    -- code 1017
  | conflictCredit                                  -- code 1018
  | logFailed                                       -- code 1019
  | commitFailed                                    -- code 1020
  | runtimePanic    -- nil-pointer dereference of a nil sql.Result
  | noResponse      -- the retry loop falls through without writing anything
  deriving DecidableEq, Repr

/-- One attempt of `handleTransfer` (lines 167-234) in the sequential
(no concurrent writer, no driver error) semantics: begin transaction, read
source, funds check, version-gated debit, read destination, version-gated
credit, insert the log row, commit.  Every failure path returns the original
state `db`: the transaction is rolled back and nothing committed. -/
def transferAttempt (db : DBState) (fromId toId : AccountID) (amount : ℚ) :
    TransferResult × DBState :=
  let now := db.clock + 1
  match db.accounts fromId with
  | none => (.sourceNotFound, db)
  | some fromA =>
    if fromA.balance < amount then
      (.insufficientFunds, db)
    else
      let r1 := conditionalUpdateBalance db fromId (-amount) fromA.lastUpdated now
      if r1.1 = 0 then
        (.conflictDebit, db)
      else
        match r1.2.accounts toId with
        | none => (.destNotFound, db)
        | some toA =>
          let r2 := conditionalUpdateBalance r1.2 toId amount toA.lastUpdated now
          if r2.1 = 0 then
            (.conflictCredit, db)
          else
            (.success fromId toId amount,
             { accounts := r2.2.accounts,
               transactions := r2.2.transactions ++ [⟨fromId, toId, amount⟩],
               clock := now })

/-- Outcome of `handleCreateAccount` (lines 89-119): `INSERT INTO accounts`
fails with code 1003 when the primary key already exists. -/
inductive CreateResult where
  | created         -- code 2001
  | alreadyExists   -- code 1003
  deriving DecidableEq, Repr

/-- `handleCreateAccount`: insert `(id, balance, NOW())`; duplicate primary
key leaves the state unchanged. -/
def createAccount (db : DBState) (id : AccountID) (initialBalance : ℚ) :
    CreateResult × DBState :=
  match db.accounts id with
  | some _ => (.alreadyExists, db)
  | none =>
    (.created,
     { db with
       accounts := fun j =>
         if j = id then some ⟨initialBalance, db.clock + 1⟩ else db.accounts j,
       clock := db.clock + 1 })

/-- An externally observable operation against the service. -/
inductive Op where
  | create (id : AccountID) (initialBalance : ℚ)
  | transfer (fromId toId : AccountID) (amount : ℚ)
  | read (id : AccountID)
  deriving DecidableEq, Repr

/-- State effect of one operation (`handleGetAccount` only reads). -/
def applyOp (db : DBState) : Op → DBState
  | .create id b => (createAccount db id b).2
  | .transfer f t a => (transferAttempt db f t a).2
  | .read _ => db

/-- Committed state after a sequence of operations. -/
def runOps (db : DBState) : List Op → DBState :=
  List.foldl applyOp db

/-- The empty database after `CREATE TABLE`. -/
def initDB : DBState :=
  { accounts := fun _ => none, transactions := [], clock := 0 }

/-- Every account balance in the state is non-negative. -/
def NonNegBalances (db : DBState) : Prop :=
  ∀ id row, db.accounts id = some row → 0 ≤ row.balance

/-- Operation preconditions of claim C2 as amended: creations carry a
non-negative initial balance and transfers a non-negative amount. -/
def OpOK : Op → Prop
  | .create _ b => 0 ≤ b
  | .transfer _ _ a => 0 ≤ a
  | .read _ => True

/-- Outcome of one `tx.Exec` UPDATE as seen by the handler: either a non-nil
`sql.Result` carrying a rows-affected count (err == nil), or an error, in
which case the returned result is nil. -/
inductive ExecOutcome where
  | res (rowsAffected : Nat)
  | errNil
  deriving DecidableEq, Repr

/-- What the database returns to one attempt of the retry loop: the two row
reads, the two UPDATE outcomes, and whether the log INSERT and the COMMIT
succeed.  Concurrent writers and driver faults are captured by the
environment choosing these values per attempt. -/
structure AttemptEnv where
  fromRow : Option AccountRow
  debit : ExecOutcome
  toRow : Option AccountRow
  credit : ExecOutcome
  logOk : Bool
  commitOk : Bool
  deriving DecidableEq, Repr

/-- Externally visible control events of the retry loop: `tx.Begin`, the
explicit `tx.Rollback()` before a retry, `time.Sleep(50ms)`, `tx.Commit`. -/
inductive Ev where
  | beginTx
  | rollback
  | sleep50
  | commitEv
  deriving DecidableEq, Repr

/-- `maxRetries := 3` (line 165). -/
def maxRetries : Nat := 3

/-- The retry loop of `handleTransfer` (lines 166-235), driven by the
per-attempt environment.  `att` is the Go `attempt` counter; `left` is the
number of loop iterations still available (`left = maxRetries - att + 1`
on entry, so `left = 1` exactly when `attempt == maxRetries`).  Faithful to
the source: an UPDATE error makes the handler read `result.RowsAffected()`
from a nil result (line 187 / 206) before inspecting the error, which is a
nil dereference, modelled as `runtimePanic`; a rows-affected count of 0 on
a non-final attempt rolls back, sleeps 50 ms and continues; on the final
attempt it returns the phase-specific conflict error; if the loop ever fell
through, no response would be written (`noResponse`). -/
def runAux (env : Nat → AttemptEnv) (fromId toId : AccountID) (amount : ℚ) :
    Nat → Nat → TransferResult × List Ev
  | _, 0 => (.noResponse, [])
  | att, left + 1 =>
    let e := env att
    match e.fromRow with
    | none => (.sourceNotFound, [.beginTx])
    | some fromA =>
      if fromA.balance < amount then
        (.insufficientFunds, [.beginTx])
      else
        match e.debit with
        | .errNil => (.runtimePanic, [.beginTx])
        | .res n =>
          if n = 0 then
            if left = 0 then
              (.conflictDebit, [.beginTx])
            else
              let p := runAux env fromId toId amount (att + 1) left
              (p.1, .beginTx :: .rollback :: .sleep50 :: p.2)
          else
            match e.toRow with
            | none => (.destNotFound, [.beginTx])
            | some _ =>
              match e.credit with
              | .errNil => (.runtimePanic, [.beginTx])
              | .res m =>
                if m = 0 then
                  if left = 0 then
                    (.conflictCredit, [.beginTx])
                  else
                    let p := runAux env fromId toId amount (att + 1) left
                    (p.1, .beginTx :: .rollback :: .sleep50 :: p.2)
                else
                  if e.logOk then
                    if e.commitOk then
                      (.success fromId toId amount, [.beginTx, .commitEv])
                    else
                      (.commitFailed, [.beginTx])
                  else
                    (.logFailed, [.beginTx])

/-- The retry loop entered at attempt 1 with `maxRetries` iterations. -/
def handleTransferRetry (env : Nat → AttemptEnv) (fromId toId : AccountID)
    (amount : ℚ) : TransferResult × List Ev :=
  runAux env fromId toId amount 1 maxRetries

/-- The exact rationals a Go `float64` can hold: finite IEEE-754 binary64
values, i.e. dyadic rationals `m * 2 ^ e` with a 53-bit significand and
exponent at least -1074.  The fields `TransferRequest.Amount` and
`Account.Balance` of the Go program have this type. -/
def Float64Representable (q : ℚ) : Prop :=
  ∃ (m e : ℤ), |m| < 2 ^ 53 ∧ -1074 ≤ e ∧ q = (m : ℚ) * (2 : ℚ) ^ e

/-- The Go `TransferRequest` struct (lines 22-26); `Amount` is declared
`float64` in the source, captured by `amountFitsFloat64` below. -/
structure TransferRequest where
  FromAccountID : Int
  ToAccountID : Int
  Amount : ℚ

/-- A request value that actually fits the Go struct: its amount is a value
the `float64` field can represent exactly. -/
def amountFitsFloat64 (r : TransferRequest) : Prop :=
  Float64Representable r.Amount

/-- The precondition claim C2 places on creations: `create` operations carry
a non-negative initial balance (other operations are unconstrained). -/
def CreateNonNeg : Op → Prop
  | .create _ b => 0 ≤ b
  | _ => True

/-- Concrete run for the C2 counterexample: two accounts created with
balance 0, then a transfer of amount -5 (never rejected by the code). -/
def opsC2 : List Op := [.create 1 0, .create 2 0, .transfer 1 2 (-5)]

/-- Concrete run for the C2 witness: all amounts non-negative. -/
def opsC2w : List Op := [.create 1 5, .create 2 0, .transfer 1 2 3]

/-- One account 101 with balance 100: state for the C1 self-transfer
counterexample. -/
def dbC1 : DBState :=
  { accounts := fun j => if j = 101 then some ⟨100, 1⟩ else none,
    transactions := [], clock := 1 }

/-- Two accounts for the C1 witness. -/
def dbC1w : DBState :=
  { accounts := fun j => if j = 101 then some ⟨100, 1⟩
      else if j = 102 then some ⟨7, 1⟩ else none,
    transactions := [], clock := 1 }

/-- One account with balance 10: state for the C3 witness. -/
def dbC3 : DBState :=
  { accounts := fun j => if j = 1 then some ⟨10, 1⟩ else none,
    transactions := [], clock := 1 }

/-- One account: state for the C5 witness (account 2 does not exist). -/
def dbC5 : DBState :=
  { accounts := fun j => if j = 1 then some ⟨10, 1⟩ else none,
    transactions := [], clock := 1 }

/-- One account: state for the C6 witness. -/
def dbC6 : DBState :=
  { accounts := fun j => if j = 1 then some ⟨10, 1⟩ else none,
    transactions := [], clock := 1 }

/-- Two accounts: state for the C7 witness. -/
def dbC7 : DBState :=
  { accounts := fun j => if j = 1 then some ⟨10, 1⟩
      else if j = 2 then some ⟨0, 1⟩ else none,
    transactions := [], clock := 1 }

/-- One account: state for the C8 witness. -/
def dbC8 : DBState :=
  { accounts := fun j => if j = 1 then some ⟨10, 1⟩ else none,
    transactions := [], clock := 1 }

/-- Two zero-balance accounts: state for the C9 witness. -/
def dbC9 : DBState :=
  { accounts := fun j => if j = 1 then some ⟨0, 1⟩
      else if j = 2 then some ⟨0, 1⟩ else none,
    transactions := [], clock := 1 }

/-- Environment in which every attempt hits a version conflict on the debit
UPDATE (rows affected 0, no error): C4 witness. -/
def envC4 : Nat → AttemptEnv :=
  fun _ => { fromRow := some ⟨100, 1⟩, debit := .res 0,
             toRow := some ⟨0, 1⟩, credit := .res 1, logOk := true, commitOk := true }

/-- Environment in which the debit UPDATE itself returns an error, so the
`sql.Result` handed back to line 187 is nil: C10 counterexample. -/
def envC10 : Nat → AttemptEnv :=
  fun _ => { fromRow := some ⟨100, 1⟩, debit := .errNil,
             toRow := some ⟨0, 1⟩, credit := .res 1, logOk := true, commitOk := true }

/-- Environment in which no UPDATE ever errors: C10 witness. -/
def envC10ok : Nat → AttemptEnv :=
  fun _ => { fromRow := some ⟨100, 1⟩, debit := .res 1,
             toRow := some ⟨0, 1⟩, credit := .res 1, logOk := true, commitOk := true }

/-- Exhaustive case analysis of one sequential transfer attempt: it either
fails (source missing, funds short, or destination missing) leaving the
state untouched, or succeeds, debiting the source, crediting the
destination (which is the just-debited row for a self-transfer), stamping
both rows with the transaction's `NOW()`, and appending one log row. -/
theorem transferAttempt_spec (db : DBState) (f t : AccountID) (a : ℚ) :
    (db.accounts f = none ∧ transferAttempt db f t a = (.sourceNotFound, db)) ∨
    (∃ fa, db.accounts f = some fa ∧ fa.balance < a ∧
      transferAttempt db f t a = (.insufficientFunds, db)) ∨
    (∃ fa, db.accounts f = some fa ∧ ¬ fa.balance < a ∧ t ≠ f ∧
      db.accounts t = none ∧ transferAttempt db f t a = (.destNotFound, db)) ∨
    (∃ fa tb, db.accounts f = some fa ∧ ¬ fa.balance < a ∧
      ((t = f ∧ tb = fa.balance + -a) ∨
        (t ≠ f ∧ ∃ ta, db.accounts t = some ta ∧ tb = ta.balance)) ∧
      transferAttempt db f t a =
        (.success f t a,
         { accounts := fun j =>
             if j = t then some ⟨tb + a, db.clock + 1⟩
             else if j = f then some ⟨fa.balance + -a, db.clock + 1⟩
             else db.accounts j,
           transactions := db.transactions ++ [⟨f, t, a⟩],
           clock := db.clock + 1 })) := by
  rcases hF : db.accounts f with _ | fa
  · exact Or.inl ⟨rfl, by simp [transferAttempt, hF]⟩
  · by_cases hlt : fa.balance < a
    · exact Or.inr (Or.inl ⟨fa, rfl, hlt, by simp [transferAttempt, hF, hlt]⟩)
    · by_cases htf : t = f
      · subst htf
        refine Or.inr (Or.inr (Or.inr ⟨fa, fa.balance + -a, rfl, hlt, Or.inl ⟨rfl, rfl⟩, ?_⟩))
        simp [transferAttempt, hF, hlt, conditionalUpdateBalance]
      · rcases hT : db.accounts t with _ | ta
        · refine Or.inr (Or.inr (Or.inl ⟨fa, rfl, hlt, htf, rfl, ?_⟩))
          simp [transferAttempt, hF, hlt, conditionalUpdateBalance, htf, hT]
        · refine Or.inr (Or.inr (Or.inr ⟨fa, ta.balance, rfl, hlt, Or.inr ⟨htf, ta, rfl, rfl⟩, ?_⟩))
          simp [transferAttempt, hF, hlt, conditionalUpdateBalance, htf, hT]

/-- Each single operation preserves non-negativity of all balances, provided
it satisfies `OpOK` (non-negative initial balances and amounts). -/
theorem applyOp_nonneg (db : DBState) (op : Op)
    (hdb : NonNegBalances db) (hop : OpOK op) : NonNegBalances (applyOp db op) := by
  cases op with
  | read id => exact hdb
  | create id b =>
    rcases hI : db.accounts id with _ | r
    · intro j row hj
      simp only [applyOp, createAccount, hI] at hj
      by_cases hji : j = id
      · rw [if_pos hji] at hj
        cases hj
        exact hop
      · rw [if_neg hji] at hj
        exact hdb j row hj
    · intro j row hj
      simp only [applyOp, createAccount, hI] at hj
      exact hdb j row hj
  | transfer f t a =>
    have hst := transferAttempt_spec db f t a
    rcases hst with ⟨_, h2⟩ | ⟨fa, _, _, h2⟩ | ⟨fa, _, _, _, _, h2⟩ |
      ⟨fa, tb, h1, hge, h3, h2⟩
    · simp only [applyOp, h2]; exact hdb
    · simp only [applyOp, h2]; exact hdb
    · simp only [applyOp, h2]; exact hdb
    · have hfa : 0 ≤ fa.balance := hdb f fa h1
      have hfa2 : 0 ≤ fa.balance + -a := by
        rw [not_lt] at hge
        linarith
      have htb : 0 ≤ tb + a := by
        rcases h3 with ⟨_, rfl⟩ | ⟨_, ta, hT, rfl⟩
        · linarith
        · have := hdb t ta hT
          have ha : 0 ≤ a := hop
          linarith
      intro j row hj
      simp only [applyOp, h2] at hj
      by_cases hjt : j = t
      · rw [if_pos hjt] at hj
        cases hj
        exact htb
      · rw [if_neg hjt] at hj
        by_cases hjf : j = f
        · rw [if_pos hjf] at hj
          cases hj
          exact hfa2
        · rw [if_neg hjf] at hj
          exact hdb j row hj

/-- The retry loop consults the environment only at the attempt numbers it
actually runs: two environments that agree on attempts `att .. att+left-1`
produce the same result and trace. -/
theorem runAux_env_agree (f t : AccountID) (a : ℚ) :
    ∀ (left att : Nat) (env env' : Nat → AttemptEnv),
      (∀ i, att ≤ i → i < att + left → env i = env' i) →
      runAux env f t a att left = runAux env' f t a att left := by
  intro left
  induction left with
  | zero => intro att env env' _; rfl
  | succ n ih =>
    intro att env env' h
    have he : env att = env' att := h att le_rfl (by omega)
    have hrec : runAux env f t a (att + 1) n = runAux env' f t a (att + 1) n :=
      ih (att + 1) env env' (fun i h1 h2 => h i (by omega) (by omega))
    simp only [runAux, he, hrec]

/-- The loop opens at most `left` transactions: the trace carries at most
`left` `beginTx` events. -/
theorem runAux_begin_count (f t : AccountID) (a : ℚ) :
    ∀ (left att : Nat) (env : Nat → AttemptEnv),
      ((runAux env f t a att left).2.count Ev.beginTx) ≤ left := by
  intro left
  induction left with
  | zero => intro att env; simp [runAux]
  | succ n ih =>
    intro att env
    have ih1 := ih (att + 1) env
    simp only [runAux]
    cases hF : (env att).fromRow with
    | none => simp
    | some fa =>
      by_cases hlt : fa.balance < a
      · simp [hlt]
      · cases hDb : (env att).debit with
        | errNil => simp [hlt]
        | res nn =>
          by_cases hn : nn = 0
          · subst hn
            by_cases hz : n = 0
            · subst hz
              simp [hlt]
            · simp [hlt, hz, List.count_cons]
              omega
          · cases hT : (env att).toRow with
            | none => simp [hlt, hn]
            | some ta =>
              cases hC : (env att).credit with
              | errNil => simp [hlt, hn]
              | res mm =>
                by_cases hm : mm = 0
                · subst hm
                  by_cases hz : n = 0
                  · subst hz
                    simp [hlt, hn]
                  · simp [hlt, hn, hz, List.count_cons]
                    omega
                · cases hL : (env att).logOk <;> cases hK : (env att).commitOk <;>
                    simp [hlt, hn, hm]

/-- The rational 1/10 is not a dyadic rational, hence not a finite binary64
value: the exact decimal 0.1 has no `float64` representation. -/
theorem one_tenth_not_dyadic (m e : ℤ) : (1 / 10 : ℚ) ≠ (m : ℚ) * (2 : ℚ) ^ e := by
  intro h
  rcases Int.eq_nat_or_neg e with ⟨n, hn | hn⟩
  · subst hn
    rw [zpow_natCast] at h
    have h1 : (1 : ℚ) = 10 * ((m : ℚ) * 2 ^ n) := by
      rw [← h]
      norm_num
    have h3 : (1 : ℤ) = 10 * (m * 2 ^ n) := by exact_mod_cast h1
    have h4 : (10 : ℤ) ∣ 1 := ⟨m * 2 ^ n, h3⟩
    have := Int.le_of_dvd one_pos h4
    omega
  · subst hn
    rw [zpow_neg, zpow_natCast] at h
    have hne : ((2 : ℚ) ^ n) ≠ 0 := pow_ne_zero n two_ne_zero
    have h1 : (2 : ℚ) ^ n = 10 * m := by
      field_simp at h
      linarith
    have h2 : (2 : ℤ) ^ n = 10 * m := by exact_mod_cast h1
    have h5 : (5 : ℤ) ∣ 2 ^ n := ⟨2 * m, by linarith⟩
    have hp : Prime (5 : ℤ) := by norm_num
    have h6 : (5 : ℤ) ∣ 2 := hp.dvd_of_dvd_pow h5
    have := Int.le_of_dvd (by norm_num) h6
    omega

/-- C1, counterexample to the claim as stated: a self-transfer (source =
destination, never rejected by the code) of amount 50 from a balance of 100
completes successfully, yet the source balance does not decrease by 50 — it
is unchanged. -/
theorem C1_counterexample :
    (transferAttempt dbC1 101 101 50).1 = .success 101 101 50 ∧
    balOf dbC1 101 = some 100 ∧
    balOf (transferAttempt dbC1 101 101 50).2 101 = some 100 ∧
    (100 : ℚ) ≠ 100 - 50 := by
  refine ⟨by decide, by decide, ?_, by norm_num⟩
  norm_num [transferAttempt, conditionalUpdateBalance, dbC1, balOf]

/-- C1 as amended: for every transfer with distinct source and destination
that completes successfully, the source balance decreases by exactly the
requested amount, the destination balance increases by exactly the requested
amount, and the sum of the two balances is preserved. -/
theorem C1_amended (db : DBState) (f t : AccountID) (a : ℚ)
    (hne : f ≠ t) (h : (transferAttempt db f t a).1 = .success f t a) :
    ∃ fa ta, db.accounts f = some fa ∧ db.accounts t = some ta ∧
      balOf (transferAttempt db f t a).2 f = some (fa.balance - a) ∧
      balOf (transferAttempt db f t a).2 t = some (ta.balance + a) ∧
      (fa.balance - a) + (ta.balance + a) = fa.balance + ta.balance := by
  rcases transferAttempt_spec db f t a with ⟨_, h2⟩ | ⟨fa, _, _, h2⟩ |
    ⟨fa, _, _, _, _, h2⟩ | ⟨fa, tb, h1, _, h3, h4⟩
  · rw [h2] at h; exact absurd h (by simp)
  · rw [h2] at h; exact absurd h (by simp)
  · rw [h2] at h; exact absurd h (by simp)
  · rcases h3 with ⟨htf, _⟩ | ⟨_, ta, hT, rfl⟩
    · exact absurd htf.symm hne
    · refine ⟨fa, ta, h1, hT, ?_, ?_, by ring⟩
      · rw [h4]; simp [balOf, hne, sub_eq_add_neg]
      · rw [h4]; simp [balOf]

/-- C1 witness: the amended theorem applied to a successful 101 → 102
transfer of amount 40. -/
theorem C1_amended_witness :
    ∃ fa ta, dbC1w.accounts 101 = some fa ∧ dbC1w.accounts 102 = some ta ∧
      balOf (transferAttempt dbC1w 101 102 40).2 101 = some (fa.balance - 40) ∧
      balOf (transferAttempt dbC1w 101 102 40).2 102 = some (ta.balance + 40) ∧
      (fa.balance - 40) + (ta.balance + 40) = fa.balance + ta.balance :=
  C1_amended dbC1w 101 102 40 (by decide) (by decide)

/-- C2, counterexample to the claim as stated: starting from the empty store,
two creations with non-negative (zero) initial balance followed by a
transfer of amount -5 — which the code never rejects — commit a state in
which account 2 has balance -5 < 0. -/
theorem C2_counterexample :
    (∀ op ∈ opsC2, CreateNonNeg op) ∧
    balOf (runOps initDB opsC2) 2 = some (-5) ∧ ¬ (0 : ℚ) ≤ -5 := by
  refine ⟨?_, ?_, by norm_num⟩
  · intro op hop
    simp [opsC2] at hop
    rcases hop with rfl | rfl | rfl <;> norm_num [CreateNonNeg]
  · norm_num [runOps, opsC2, applyOp, createAccount, transferAttempt,
      conditionalUpdateBalance, initDB, balOf]

/-- C2 as amended: if every creation carries a non-negative initial balance
and every transfer a non-negative amount, then after any sequence of
operations from a state with all balances non-negative, every account
balance is still non-negative — no operation commits a negative balance. -/
theorem C2_amended : ∀ (ops : List Op) (db : DBState), NonNegBalances db →
    (∀ op ∈ ops, OpOK op) → NonNegBalances (runOps db ops) := by
  intro ops
  induction ops with
  | nil => exact fun db h _ => h
  | cons op rest ih =>
    intro db hdb hops
    exact ih _ (applyOp_nonneg db op hdb (hops op (by simp)))
      (fun o ho => hops o (by simp [ho]))

/-- C2 witness: the amended invariant applied to a concrete run of two
creations and one transfer. -/
theorem C2_amended_witness : NonNegBalances (runOps initDB opsC2w) := by
  apply C2_amended
  · intro id row h
    simp [initDB] at h
  · intro op hop
    simp [opsC2w] at hop
    rcases hop with rfl | rfl | rfl <;> norm_num [OpOK]

/-- C3: whenever the requested amount strictly exceeds the source balance at
read time, the transfer fails with InsufficientFunds (code 1015), the
committed state — balances and transaction log — is exactly the original
one, and the failure is terminal: the retry loop returns at once, with no
rollback-sleep-retry events and no further attempts, regardless of how many
attempts remain. -/
theorem C3_insufficient_funds :
    (∀ (db : DBState) (f t : AccountID) (a : ℚ) fa,
      db.accounts f = some fa → fa.balance < a →
      transferAttempt db f t a = (.insufficientFunds, db)) ∧
    (∀ (env : Nat → AttemptEnv) (f t : AccountID) (a : ℚ) (att left : Nat) fa,
      (env att).fromRow = some fa → fa.balance < a →
      runAux env f t a att (left + 1) = (.insufficientFunds, [.beginTx])) := by
  constructor
  · intro db f t a fa hF hlt
    simp [transferAttempt, hF, hlt]
  · intro env f t a att left fa hF hlt
    simp [runAux, hF, hlt]

/-- C3 witness: a request for 50 against a balance of 10 fails terminally in
both the state semantics and the retry loop. -/
theorem C3_insufficient_funds_witness :
    transferAttempt dbC3 1 2 50 = (.insufficientFunds, dbC3) ∧
    runAux (fun _ => ⟨some ⟨10, 1⟩, .res 1, some ⟨0, 1⟩, .res 1, true, true⟩)
      1 2 50 1 3 = (.insufficientFunds, [.beginTx]) :=
  ⟨C3_insufficient_funds.1 dbC3 1 2 50 ⟨10, 1⟩ rfl (by norm_num),
   C3_insufficient_funds.2 (fun _ => ⟨some ⟨10, 1⟩, .res 1, some ⟨0, 1⟩, .res 1, true, true⟩)
     1 2 50 1 2 ⟨10, 1⟩ rfl (by norm_num)⟩

/-- C4: the retry policy of the transfer handler. A version conflict (0 rows
affected) at the debit or at the credit step on a non-final attempt discards
the unit of work, sleeps 50 ms, and re-runs the whole attempt against the
next attempt's environment (fresh reads of both accounts); on the final
attempt the conflict is terminal and phase-distinguished (conflictDebit,
code 1016, vs conflictCredit, code 1018); the loop consults at most
attempts 1..maxRetries and opens at most maxRetries = 3 transactions. -/
theorem C4_retry_policy :
    (∀ (env : Nat → AttemptEnv) (f t : AccountID) (a : ℚ) (att left : Nat) fa,
      (env att).fromRow = some fa → ¬ fa.balance < a → (env att).debit = .res 0 →
      runAux env f t a att (left + 2) =
        ((runAux env f t a (att + 1) (left + 1)).1,
         .beginTx :: .rollback :: .sleep50 :: (runAux env f t a (att + 1) (left + 1)).2)) ∧
    (∀ (env : Nat → AttemptEnv) (f t : AccountID) (a : ℚ) (att left : Nat) fa n ta,
      (env att).fromRow = some fa → ¬ fa.balance < a → (env att).debit = .res (n + 1) →
      (env att).toRow = some ta → (env att).credit = .res 0 →
      runAux env f t a att (left + 2) =
        ((runAux env f t a (att + 1) (left + 1)).1,
         .beginTx :: .rollback :: .sleep50 :: (runAux env f t a (att + 1) (left + 1)).2)) ∧
    (∀ (env : Nat → AttemptEnv) (f t : AccountID) (a : ℚ) (att : Nat) fa,
      (env att).fromRow = some fa → ¬ fa.balance < a → (env att).debit = .res 0 →
      runAux env f t a att 1 = (.conflictDebit, [.beginTx])) ∧
    (∀ (env : Nat → AttemptEnv) (f t : AccountID) (a : ℚ) (att : Nat) fa n ta,
      (env att).fromRow = some fa → ¬ fa.balance < a → (env att).debit = .res (n + 1) →
      (env att).toRow = some ta → (env att).credit = .res 0 →
      runAux env f t a att 1 = (.conflictCredit, [.beginTx])) ∧
    (∀ (env env' : Nat → AttemptEnv) (f t : AccountID) (a : ℚ),
      (∀ i, 1 ≤ i → i ≤ maxRetries → env i = env' i) →
      handleTransferRetry env f t a = handleTransferRetry env' f t a) ∧
    (∀ (env : Nat → AttemptEnv) (f t : AccountID) (a : ℚ),
      ((handleTransferRetry env f t a).2.count Ev.beginTx) ≤ maxRetries) := by
  refine ⟨?_, ?_, ?_, ?_, ?_, ?_⟩
  · intro env f t a att left fa hF hlt hDb
    simp [runAux, hF, hlt, hDb]
  · intro env f t a att left fa n ta hF hlt hDb hT hC
    simp [runAux, hF, hlt, hDb, hT, hC]
  · intro env f t a att fa hF hlt hDb
    simp [runAux, hF, hlt, hDb]
  · intro env f t a att fa n ta hF hlt hDb hT hC
    simp [runAux, hF, hlt, hDb, hT, hC]
  · intro env env' f t a h
    exact runAux_env_agree f t a maxRetries 1 env env'
      (fun i h1 h2 => h i h1 (by omega))
  · intro env f t a
    exact runAux_begin_count f t a maxRetries 1 env

/-- C4 witness: a debit conflict on attempt 1 of 3 rolls back, sleeps and
retries; a debit conflict on the final attempt returns conflictDebit. -/
theorem C4_retry_policy_witness :
    runAux envC4 1 2 (5 : ℚ) 1 3 =
      ((runAux envC4 1 2 (5 : ℚ) 2 2).1,
       .beginTx :: .rollback :: .sleep50 :: (runAux envC4 1 2 (5 : ℚ) 2 2).2) ∧
    runAux envC4 1 2 (5 : ℚ) 3 1 = (.conflictDebit, [.beginTx]) :=
  ⟨C4_retry_policy.1 envC4 1 2 5 1 1 ⟨100, 1⟩ rfl (by norm_num) rfl,
   C4_retry_policy.2.2.1 envC4 1 2 5 3 ⟨100, 1⟩ rfl (by norm_num) rfl⟩

/-- C5: a transfer from a nonexistent source fails sourceNotFound (code
1014) with the committed state exactly the original; a transfer to a
nonexistent destination — reached only after the funds check, so the debit
has already been staged — fails destNotFound (code 1017) and the committed
state is still exactly the original: the staged debit is discarded with the
rolled-back unit of work, and the log is unchanged. -/
theorem C5_account_not_found :
    (∀ (db : DBState) (f t : AccountID) (a : ℚ),
      db.accounts f = none → transferAttempt db f t a = (.sourceNotFound, db)) ∧
    (∀ (db : DBState) (f t : AccountID) (a : ℚ) fa,
      db.accounts f = some fa → ¬ fa.balance < a → db.accounts t = none →
      transferAttempt db f t a = (.destNotFound, db)) := by
  constructor
  · intro db f t a hF
    simp [transferAttempt, hF]
  · intro db f t a fa hF hge hT
    have htf : t ≠ f := by
      intro h
      rw [h, hF] at hT
      cases hT
    simp [transferAttempt, hF, hge, conditionalUpdateBalance, htf, hT]

/-- C5 witness: transfers involving the missing account 2 fail with the
respective not-found errors and leave the state unchanged. -/
theorem C5_account_not_found_witness :
    transferAttempt dbC5 2 1 5 = (.sourceNotFound, dbC5) ∧
    transferAttempt dbC5 1 2 5 = (.destNotFound, dbC5) :=
  ⟨C5_account_not_found.1 dbC5 2 1 5 rfl,
   C5_account_not_found.2 dbC5 1 2 5 ⟨10, 1⟩ rfl (by norm_num) rfl⟩

/-- C6: the conditional update applies `balance += delta` and stamps the row
with the transaction's `NOW()` — strictly advancing the version whenever the
stored stamp is within the current clock — exactly when the stored version
equals the caller's expected version, touching no other row and no log
entry; when the stored version differs it reports 0 rows affected and the
state is entirely unchanged. -/
theorem C6_conditional_update (db : DBState) (id : AccountID) (delta : ℚ)
    (expected : Nat) (row : AccountRow) (hI : db.accounts id = some row) :
    (row.lastUpdated = expected →
      (conditionalUpdateBalance db id delta expected (db.clock + 1)).1 = 1 ∧
      (conditionalUpdateBalance db id delta expected (db.clock + 1)).2.accounts id =
        some ⟨row.balance + delta, db.clock + 1⟩ ∧
      (∀ j, j ≠ id →
        (conditionalUpdateBalance db id delta expected (db.clock + 1)).2.accounts j =
          db.accounts j) ∧
      (conditionalUpdateBalance db id delta expected (db.clock + 1)).2.transactions =
        db.transactions ∧
      (∀ r, (conditionalUpdateBalance db id delta expected (db.clock + 1)).2.accounts id =
          some r → row.lastUpdated ≤ db.clock → row.lastUpdated < r.lastUpdated)) ∧
    (row.lastUpdated ≠ expected →
      conditionalUpdateBalance db id delta expected (db.clock + 1) = (0, db)) := by
  constructor
  · intro hv
    refine ⟨?_, ?_, ?_, ?_, ?_⟩
    · simp [conditionalUpdateBalance, hI, hv]
    · simp [conditionalUpdateBalance, hI, hv]
    · intro j hj
      simp [conditionalUpdateBalance, hI, hv, hj]
    · simp [conditionalUpdateBalance, hI, hv]
    · intro r hr hle
      simp [conditionalUpdateBalance, hI, hv] at hr
      rw [← hr]
      show row.lastUpdated < db.clock + 1
      omega
  · intro hv
    simp [conditionalUpdateBalance, hI, hv]

/-- C6 witness: with the stored version 1 matching, the update applies
10 + 4 and reports 1 row; with expected version 7 it mutates nothing. -/
theorem C6_conditional_update_witness :
    (conditionalUpdateBalance dbC6 1 4 1 (dbC6.clock + 1)).1 = 1 ∧
    (conditionalUpdateBalance dbC6 1 4 1 (dbC6.clock + 1)).2.accounts 1 =
      some ⟨(10 : ℚ) + 4, dbC6.clock + 1⟩ ∧
    conditionalUpdateBalance dbC6 1 4 7 (dbC6.clock + 1) = (0, dbC6) :=
  ⟨((C6_conditional_update dbC6 1 4 1 ⟨10, 1⟩ rfl).1 rfl).1,
   ((C6_conditional_update dbC6 1 4 1 ⟨10, 1⟩ rfl).1 rfl).2.1,
   (C6_conditional_update dbC6 1 4 7 ⟨10, 1⟩ rfl).2 (by norm_num)⟩

/-- C7: a successful transfer commits exactly one new log row, carrying the
transfer's source, destination and amount, in the same atomic state change
as the balance mutations; an unsuccessful transfer commits nothing at all
(balances and log both unchanged), and account creation never appends a log
row — so no log row exists without its paired mutations. -/
theorem C7_log_append (db : DBState) (f t : AccountID) (a : ℚ) :
    ((transferAttempt db f t a).1 = .success f t a →
      (transferAttempt db f t a).2.transactions = db.transactions ++ [⟨f, t, a⟩]) ∧
    ((transferAttempt db f t a).1 ≠ .success f t a → (transferAttempt db f t a).2 = db) ∧
    (∀ id b, (createAccount db id b).2.transactions = db.transactions) := by
  refine ⟨?_, ?_, ?_⟩
  · intro h
    rcases transferAttempt_spec db f t a with ⟨_, h2⟩ | ⟨fa, _, _, h2⟩ |
      ⟨fa, _, _, _, _, h2⟩ | ⟨fa, tb, _, _, _, h2⟩
    · rw [h2] at h; exact absurd h (by simp)
    · rw [h2] at h; exact absurd h (by simp)
    · rw [h2] at h; exact absurd h (by simp)
    · rw [h2]
  · intro h
    rcases transferAttempt_spec db f t a with ⟨_, h2⟩ | ⟨fa, _, _, h2⟩ |
      ⟨fa, _, _, _, _, h2⟩ | ⟨fa, tb, _, _, _, h2⟩
    · rw [h2]
    · rw [h2]
    · rw [h2]
    · rw [h2] at h
      simp at h
  · intro id b
    cases hI : db.accounts id <;> simp [createAccount, hI]

/-- C7 witness: a successful transfer appends its one matching log row; a
failing transfer leaves the state untouched. -/
theorem C7_log_append_witness :
    (transferAttempt dbC7 1 2 5).2.transactions = dbC7.transactions ++ [⟨1, 2, 5⟩] ∧
    (transferAttempt dbC7 2 1 5).2 = dbC7 :=
  ⟨(C7_log_append dbC7 1 2 5).1 (by decide),
   (C7_log_append dbC7 2 1 5).2.1 (by decide)⟩

/-- C8, counterexample to the claim as stated: the Go `Amount` field is a
binary `float64`, and no `float64`-representable request amount equals the
exact decimal 0.1 — so amounts are not represented with exact decimal
semantics. -/
theorem C8_counterexample :
    ¬ ∃ r : TransferRequest, amountFitsFloat64 r ∧ r.Amount = 1 / 10 := by
  rintro ⟨r, ⟨m, e, _, _, hval⟩, hamt⟩
  rw [hamt] at hval
  exact one_tenth_not_dyadic m e hval

/-- C8 as amended: only the database-side arithmetic is exact — a matching
conditional update stores exactly `balance + delta` as a rational, with no
rounding of its own; the application-side representation is binary
floating point (see the counterexample). -/
theorem C8_amended (db : DBState) (id : AccountID) (delta : ℚ) (expected : Nat)
    (row : AccountRow) (hI : db.accounts id = some row)
    (hv : row.lastUpdated = expected) :
    balOf (conditionalUpdateBalance db id delta expected (db.clock + 1)).2 id =
      some (row.balance + delta) := by
  simp [conditionalUpdateBalance, hI, hv, balOf]

/-- C8 witness: the update stores exactly 10 + 4. -/
theorem C8_amended_witness :
    balOf (conditionalUpdateBalance dbC8 1 4 1 (dbC8.clock + 1)).2 1 =
      some ((10 : ℚ) + 4) :=
  C8_amended dbC8 1 4 1 ⟨10, 1⟩ rfl rfl

/-- C9: the transfer handler performs no positivity validation on the amount
and no rejection of self-transfers: a request with amount ≤ 0 against any
existing non-negative-balance source and existing destination proceeds
through the ordinary algorithm and succeeds, and a self-transfer with
sufficient balance likewise succeeds — no InvalidInput-style result exists
on those grounds. -/
theorem C9_no_input_validation :
    (∀ (db : DBState) (f t : AccountID) (a : ℚ) fa ta,
      db.accounts f = some fa → db.accounts t = some ta →
      a ≤ 0 → 0 ≤ fa.balance → (transferAttempt db f t a).1 = .success f t a) ∧
    (∀ (db : DBState) (f : AccountID) (a : ℚ) fa,
      db.accounts f = some fa → ¬ fa.balance < a →
      (transferAttempt db f f a).1 = .success f f a) := by
  constructor
  · intro db f t a fa ta hF hT ha hb
    have hge : ¬ fa.balance < a := not_lt.mpr (ha.trans hb)
    rcases transferAttempt_spec db f t a with ⟨h1, _⟩ | ⟨fa2, h1, h2, _⟩ |
      ⟨fa2, h1, _, _, h4, _⟩ | ⟨fa2, tb, _, _, _, h4⟩
    · rw [hF] at h1; cases h1
    · rw [hF] at h1
      cases h1
      exact absurd h2 hge
    · rw [hT] at h4; cases h4
    · rw [h4]
  · intro db f a fa hF hge
    rcases transferAttempt_spec db f f a with ⟨h1, _⟩ | ⟨fa2, h1, h2, _⟩ |
      ⟨fa2, _, _, h3, _, _⟩ | ⟨fa2, tb, _, _, _, h4⟩
    · rw [hF] at h1; cases h1
    · rw [hF] at h1
      cases h1
      exact absurd h2 hge
    · exact absurd rfl h3
    · rw [h4]

/-- C9 witness: a transfer of amount -5 between two zero-balance accounts
succeeds, and a zero-amount self-transfer succeeds. -/
theorem C9_no_input_validation_witness :
    (transferAttempt dbC9 1 2 (-5)).1 = .success 1 2 (-5) ∧
    (transferAttempt dbC9 1 1 0).1 = .success 1 1 0 :=
  ⟨C9_no_input_validation.1 dbC9 1 2 (-5) ⟨0, 1⟩ ⟨0, 1⟩ rfl rfl (by norm_num) (by norm_num),
   C9_no_input_validation.2 dbC9 1 0 ⟨0, 1⟩ rfl (by norm_num)⟩

/-- C10, counterexample to the claim as stated: in an execution where the
debit UPDATE itself returns an error, the handler reads
`result.RowsAffected()` (line 187) from the nil result before inspecting the
error — the dereferenced result IS nil on that branch, and the run panics. -/
theorem C10_counterexample :
    handleTransferRetry envC10 1 2 5 = (.runtimePanic, [.beginTx]) := by decide

/-- C10 as amended: the rows-affected read is safe only on executions in
which neither UPDATE statement returns an error; under that hypothesis no
run of the retry loop reaches the nil dereference. -/
theorem C10_amended :
    ∀ (env : Nat → AttemptEnv) (f t : AccountID) (a : ℚ) (att left : Nat),
      (∀ i, (env i).debit ≠ ExecOutcome.errNil) →
      (∀ i, (env i).credit ≠ ExecOutcome.errNil) →
      (runAux env f t a att left).1 ≠ TransferResult.runtimePanic := by
  intro env f t a att left hd hc
  induction left generalizing att with
  | zero => simp [runAux]
  | succ n ih =>
    simp only [runAux]
    cases hF : (env att).fromRow with
    | none => simp
    | some fa =>
      by_cases hlt : fa.balance < a
      · simp [hlt]
      · cases hDb : (env att).debit with
        | errNil => exact absurd hDb (hd att)
        | res nn =>
          by_cases hn : nn = 0
          · subst hn
            by_cases hz : n = 0
            · subst hz
              simp [hlt]
            · simpa [hlt, hz] using ih (att + 1)
          · cases hT : (env att).toRow with
            | none => simp [hlt, hn]
            | some ta =>
              cases hC : (env att).credit with
              | errNil => exact absurd hC (hc att)
              | res mm =>
                by_cases hm : mm = 0
                · subst hm
                  by_cases hz : n = 0
                  · subst hz
                    simp [hlt, hn]
                  · simpa [hlt, hn, hz] using ih (att + 1)
                · cases hL : (env att).logOk <;> cases hK : (env att).commitOk <;>
                    simp [hlt, hn, hm]

/-- C10 witness: with every UPDATE returning a proper result, a full 3-attempt
run never panics. -/
theorem C10_amended_witness :
    (runAux envC10ok 1 2 (5 : ℚ) 1 3).1 ≠ TransferResult.runtimePanic :=
  C10_amended envC10ok 1 2 5 1 3 (fun _ h => nomatch h) (fun _ h => nomatch h)
